import Mathlib

/-
Formal model of the segment-download engine in src/video_processor.py
(repository mp4-video-processor), together with theorems settling the
specification claims about it.

Modelling conventions:
- Python floats that carry percentages, speeds and durations are modelled
  as rationals.
- Python int() truncation is modelled by pyint.
- Python floor division and modulo on integers are Int.fdiv and Int.fmod.
- Effectful code is modelled by explicit state passing.  The external
  world (network, filesystem, system load sampler, ffmpeg) is an oracle
  record supplied as input; each branch of the Python try/except becomes
  an explicit branch on the oracle.  A raised exception is an error value
  that propagates to the except handler of download_full_video.
- The control loop of download_full_video is driven by a list of
  per-iteration oracles (which in-flight tasks complete, whether the 2 s
  load-adjustment tick and the 0.5 s progress tick fire, the sampled
  cpu/memory percentages).  Running out of oracle entries before the loop
  drains is represented by the value none (the loop would still be
  running).
-/

/-- Truncation toward zero, the semantics of Python int() on a number:
floor for nonnegative inputs, ceiling for negative ones. -/
def pyint (q : ℚ) : Int :=
  if 0 ≤ q then ⌊q⌋ else ⌈q⌉

/-- Zero-padding to width 2, the semantics of the Python format %02d used
in format_time. -/
def pad2 (n : Int) : String :=
  if 0 ≤ n ∧ n < 10 then "0" ++ toString n else toString n

/-- Fixed-point decimal rendering of a rational, modelling the Python
format specifiers like :.1f and :.2f (rounding half up). -/
def fmtFixed (prec : Nat) (q : ℚ) : String :=
  let scaled : Int := pyint (q * (10 : ℚ) ^ prec + 1 / 2)
  let denom : Int := (10 : Int) ^ prec
  let intPart : Int := Int.fdiv scaled denom
  let fracPart : Int := Int.fmod scaled denom
  let fracDigits : String := toString fracPart.natAbs
  let fracPadded : String :=
    String.mk (List.replicate (prec - fracDigits.length) '0') ++ fracDigits
  if prec = 0 then toString intPart else toString intPart ++ "." ++ fracPadded

/-- A line of 50 equals signs, the Python expression used as a separator
in generate_download_report. -/
def eqLine : String := String.mk (List.replicate 50 '=')

/-- format_time from src/video_processor.py: format seconds into HH:MM:SS. -/
def format_time (seconds : Int) : String :=
  let hours := Int.fdiv seconds 3600
  let minutes := Int.fdiv (Int.fmod seconds 3600) 60
  let secs := Int.fmod seconds 60
  pad2 hours ++ ":" ++ pad2 minutes ++ ":" ++ pad2 secs

/-- format_speed from src/video_processor.py: format speed in
bytes/second to a human-readable string. -/
def format_speed (bytes_per_second : ℚ) : String :=
  if bytes_per_second < 1024 then
    fmtFixed 1 bytes_per_second ++ " B/s"
  else if bytes_per_second < 1024 * 1024 then
    fmtFixed 1 (bytes_per_second / 1024) ++ " KB/s"
  else
    fmtFixed 1 (bytes_per_second / (1024 * 1024)) ++ " MB/s"

/-- adjust_workers from src/video_processor.py: dynamically adjust the
number of workers based on system load. -/
def adjust_workers (current_workers : Int) (cpu_percent memory_percent : ℚ) : Int :=
  if cpu_percent > 80 ∨ memory_percent > 80 then
    max 4 (current_workers - 4)
  else if cpu_percent < 50 ∧ memory_percent < 60 then
    min 32 (current_workers + 2)
  else
    current_workers

/-- get_optimal_workers from src/video_processor.py, on the success path
of its try block: cpu_count * 4, halved (floor 8) when available memory is
below 4 GiB, capped at 32.  The except branch (psutil unavailable) returns
16 and is covered by the caller passing any cpu_count/memAvailable. -/
def get_optimal_workers (cpu_count : Int) (memAvailable : Int) : Int :=
  let base := cpu_count * 4
  let adjusted :=
    if memAvailable < 4 * 1024 * 1024 * 1024 then max 8 (Int.fdiv base 2) else base
  min 32 adjusted

/-- generate_download_report from src/video_processor.py.  The output file
size is an Option: none models a missing output file (os.path.exists
false, so file_size = 0).  The division total_segments/elapsed_time in the
efficiency line raises ZeroDivisionError in Python when elapsed_time is
zero; that raise is modelled by the Except.error branch. -/
def generate_download_report (total_segments : Nat) (elapsed_time : ℚ)
    (final_speed : ℚ) (output_size : Option Nat) : Except String String :=
  let file_size : ℚ := ((output_size.getD 0 : Nat) : ℚ)
  let file_size_mb := file_size / (1024 * 1024)
  let avg_speed_mb := final_speed / (1024 * 1024)
  if elapsed_time = 0 then
    Except.error "ZeroDivisionError: division by zero"
  else
    Except.ok (String.intercalate "\n"
      [ "\n" ++ eqLine,
        "📥 Download Complete! 🎉",
        eqLine,
        "\n📊 Download Statistics:",
        "   ├─ 🎬 Total Segments: " ++ toString total_segments,
        "   ├─ ⏱️ Time Taken: " ++ format_time (pyint elapsed_time),
        "   ├─ 📦 File Size: " ++ fmtFixed 2 file_size_mb ++ " MB",
        "   ├─ ⚡ Average Speed: " ++ format_speed final_speed,
        "   └─ 🎯 Efficiency: " ++ fmtFixed 1 avg_speed_mb ++ " MB/s ("
          ++ fmtFixed 1 ((total_segments : ℚ) / elapsed_time) ++ " segments/s)",
        eqLine ++ "\n" ])

/-- The outcomes of the three effects performed by download_segment:
the streamed GET (raises on network or timeout failure), the
raise_for_status check (raises on an HTTP error status), and the write of
the body to the destination file. -/
structure FetchEnv where
  getOk : Bool
  statusOk : Bool
  writeOk : Bool

/-- Result of one download_segment call: the value it produces (an
Except.error would be an exception escaping to the caller) and how many
HTTP GET requests it issued. -/
structure FetchOut where
  result : Except String Bool
  getAttempts : Nat

/-- download_segment from src/video_processor.py: one streamed GET with a
10 s timeout, raise_for_status, then a streamed write; the enclosing
try/except Exception turns every raise into the return value false. -/
def download_segment (e : FetchEnv) : FetchOut :=
  let body : Except String Bool :=
    if e.getOk = false then Except.error "requests exception"
    else if e.statusOk = false then Except.error "HTTPError"
    else if e.writeOk = false then Except.error "IOError"
    else Except.ok true
  match body with
  | Except.ok b => ⟨Except.ok b, 1⟩
  | Except.error _ => ⟨Except.ok false, 1⟩

/-- A crop rectangle as produced by calculate_default_crop_areas. -/
structure CropRect where
  x : Int
  y : Int
  width : Int
  height : Int
deriving DecidableEq

/-- The pair of crop rectangles returned by calculate_default_crop_areas. -/
structure CropAreas where
  screen : CropRect
  webcam : CropRect
deriving DecidableEq

/-- calculate_default_crop_areas from src/video_processor.py: the screen
area is 80 percent of the width and the full height anchored at the
origin, the webcam area is 20 percent of the width and 25 percent of the
height anchored at x = screen width, y = 0. -/
def calculate_default_crop_areas (video_width video_height : Int) : CropAreas :=
  let screen_width := pyint ((video_width : ℚ) * (0.8 : ℚ))
  let screen_height := video_height
  let screen_x : Int := 0
  let screen_y : Int := 0
  let webcam_width := pyint ((video_width : ℚ) * (0.2 : ℚ))
  let webcam_height := pyint ((video_height : ℚ) * (0.25 : ℚ))
  let webcam_x := screen_width
  let webcam_y : Int := 0
  ⟨⟨screen_x, screen_y, screen_width, screen_height⟩,
   ⟨webcam_x, webcam_y, webcam_width, webcam_height⟩⟩

/-- get_m3u8_info from src/video_processor.py: on a successful parse it
returns the segment count, the (uri, duration) list and the summed
duration; its except branch turns any load or parse failure into the
sentinel (0, [], 0). -/
def get_m3u8_info (parseOk : Bool) (segments : List (String × ℚ)) :
    Nat × List (String × ℚ) × ℚ :=
  if parseOk = true then
    (segments.length, segments, (segments.map (fun sd => sd.2)).sum)
  else
    (0, [], 0)

/-- One progress_tracker.update_progress payload, reduced to the fields
the claims are about: the status string and the progress percentage when
the payload carries one (the error payload in download_full_video carries
no progress key). -/
structure Snapshot where
  status : String
  progress : Option ℚ
deriving DecidableEq

/-- Oracle for one iteration of the download control loop: which
in-flight segment tasks are observed done this iteration, whether the 2 s
load-adjustment tick fires (with the sampled cpu/memory percentages), and
whether the 0.5 s progress-update tick fires (with nonzero elapsed time). -/
structure IterO where
  completes : List Nat
  adjustTick : Bool
  cpu : ℚ
  mem : ℚ
  updateTick : Bool

/-- The mutable state of the download control loop in download_full_video:
the pending-task queue (segment indices in manifest order), the in-flight
set, the success counter downloaded_segments, num_workers, whether
last_speed has been assigned yet, the progress snapshots emitted so far,
and the immutable total segment count. -/
structure LoopState where
  pending : List Nat
  active : List Nat
  downloaded : Nat
  workers : Int
  lastSpeedSet : Bool
  statuses : List Snapshot
  total : Nat
deriving DecidableEq

/-- The inner dispatch loop of download_full_video: while pending tasks
remain and the in-flight set is below num_workers, pop the front of the
queue and submit it. -/
def dispatchStep : List Nat → List Nat → Int → List Nat × List Nat
  | [], a, _ => ([], a)
  | t :: rest, a, w =>
    if (a.length : Int) < w then dispatchStep rest (a ++ [t]) w
    else (t :: rest, a)

/-- The in-flight tasks that remain after harvesting the completed ones. -/
def harvestRemaining (completes : List Nat) (a : List Nat) : List Nat :=
  a.filter (fun t => !(completes.contains t))

/-- The in-flight tasks harvested as completed this iteration. -/
def harvestDone (completes : List Nat) (a : List Nat) : List Nat :=
  a.filter (fun t => completes.contains t)

/-- One iteration of the while loop of download_full_video: dispatch up to
capacity, harvest done futures counting the true results, retarget the
worker count on the 2 s tick, and emit a downloading snapshot (and assign
last_speed) on the 0.5 s tick. -/
def step (fetch : Nat → Bool) (o : IterO) (s : LoopState) : LoopState where
  pending := (dispatchStep s.pending s.active s.workers).1
  active := harvestRemaining o.completes (dispatchStep s.pending s.active s.workers).2
  downloaded := s.downloaded +
    ((harvestDone o.completes (dispatchStep s.pending s.active s.workers).2).filter fetch).length
  workers := if o.adjustTick then adjust_workers s.workers o.cpu o.mem else s.workers
  lastSpeedSet := s.lastSpeedSet || o.updateTick
  statuses :=
    if o.updateTick then
      s.statuses ++ [⟨"downloading",
        some ((((s.downloaded +
          ((harvestDone o.completes (dispatchStep s.pending s.active s.workers).2).filter
            fetch).length : Nat) : ℚ) / (s.total : ℚ)) * 100)⟩]
    else s.statuses
  total := s.total

/-- The termination condition of the control loop: both the pending queue
and the in-flight set are empty. -/
def loopDone (s : LoopState) : Bool := s.pending.isEmpty && s.active.isEmpty

/-- Run the control loop, one oracle entry per iteration, stopping when
the queue and the in-flight set have drained. -/
def runLoop (fetch : Nat → Bool) : List IterO → LoopState → LoopState
  | [], s => s
  | o :: os, s => if loopDone s then s else runLoop fetch os (step fetch o s)

/-- Every loop state reached at an iteration boundary, in order. -/
def loopTrace (fetch : Nat → Bool) : List IterO → LoopState → List LoopState
  | [], s => [s]
  | o :: os, s => if loopDone s then [s] else s :: loopTrace fetch os (step fetch o s)

/-- The external world of one download_full_video call: whether the
playlist GET succeeds, whether the m3u8 parse succeeds and the segment
list it yields, the success/failure outcome of each segment fetch, the
per-iteration loop oracles, the system facts feeding get_optimal_workers,
whether the ffmpeg merge succeeds, and the values feeding the final
report. -/
structure DLEnv where
  playlistFetchOk : Bool
  parseOk : Bool
  segments : List (String × ℚ)
  fetch : Nat → Bool
  iters : List IterO
  cpuCount : Int
  memAvail : Int
  mergeOk : Bool
  totalTime : ℚ
  lastSpeed : ℚ
  outputSize : Nat
  filename : String

/-- The total segment count reported by get_m3u8_info for an environment. -/
def numTotal (env : DLEnv) : Nat := (get_m3u8_info env.parseOk env.segments).1

/-- The loop state of download_full_video just before its while loop:
every segment pending in manifest order, nothing in flight, zero
successes, get_optimal_workers workers, last_speed unassigned. -/
def initState (env : DLEnv) : LoopState :=
  ⟨List.range (numTotal env), [], 0,
   get_optimal_workers env.cpuCount env.memAvail, false, [], numTotal env⟩

/-- The loop state of download_full_video after its while loop. -/
def loopFinal (env : DLEnv) : LoopState :=
  runLoop env.fetch env.iters (initState env)

/-- The value a download_full_video call produces: the returned filename,
or the exception message re-raised to the caller. -/
inductive DLResult where
  | ok (filename : String)
  | err (msg : String)
deriving DecidableEq

/-- The observable outcome of one download_full_video call: its result,
the progress snapshots emitted, whether the output file exists afterwards,
whether the scratch temp directory exists afterwards, how many segment
fetches were dispatched, and how many times the playlist was fetched. -/
structure Outcome where
  result : DLResult
  statuses : List Snapshot
  outputExists : Bool
  tempDirExists : Bool
  fetchAttempts : Nat
  playlistFetches : Nat
deriving DecidableEq

/-- download_full_video from src/video_processor.py.  The temp directory
is created up front and removed unconditionally by the finally block, so
tempDirExists is false in every outcome.  The except handler emits an
error snapshot (status only, no progress key), removes the output file
when it exists, and re-raises.  Reading last_speed at the report call
raises UnboundLocalError when no progress tick ever assigned it.  none
means the control loop had not yet drained after the supplied iterations. -/
def download_full_video (env : DLEnv) : Option Outcome :=
  if env.playlistFetchOk = true then
    if numTotal env = 0 then
      some ⟨DLResult.err "No segments found in playlist",
            [⟨"error", none⟩], false, false, 0, 1⟩
    else
      if loopDone (loopFinal env) = true then
        if (loopFinal env).downloaded < numTotal env then
          some ⟨DLResult.err "Download incomplete",
                (loopFinal env).statuses ++ [⟨"error", none⟩], false, false,
                numTotal env - (loopFinal env).pending.length, 1⟩
        else
          if env.mergeOk = true then
            if (loopFinal env).lastSpeedSet = true then
              match generate_download_report (numTotal env) env.totalTime
                  env.lastSpeed (some env.outputSize) with
              | Except.ok _ =>
                  some ⟨DLResult.ok env.filename,
                        (loopFinal env).statuses ++
                          [⟨"processing", some 95⟩, ⟨"complete", some 100⟩],
                        true, false, numTotal env - (loopFinal env).pending.length, 1⟩
              | Except.error e =>
                  some ⟨DLResult.err e,
                        (loopFinal env).statuses ++
                          [⟨"processing", some 95⟩, ⟨"error", none⟩],
                        false, false, numTotal env - (loopFinal env).pending.length, 1⟩
            else
              some ⟨DLResult.err "UnboundLocalError: last_speed referenced before assignment",
                    (loopFinal env).statuses ++
                      [⟨"processing", some 95⟩, ⟨"error", none⟩],
                    false, false, numTotal env - (loopFinal env).pending.length, 1⟩
          else
            some ⟨DLResult.err "MP4 conversion failed",
                  (loopFinal env).statuses ++
                    [⟨"processing", some 95⟩, ⟨"error", none⟩],
                  false, false, numTotal env - (loopFinal env).pending.length, 1⟩
      else none
  else
    some ⟨DLResult.err "Failed to fetch playlist",
          [⟨"error", none⟩], false, false, 0, 1⟩

/-- Concrete environment exhibiting the last_speed slip: one segment,
every fetch succeeds, the whole download finishes in the first loop
iteration so no 0.5 s progress tick ever fires, and the merge would
succeed. -/
def envC1 : DLEnv :=
  ⟨true, true, [("seg0.ts", 2)], fun _ => true, [⟨[0], false, 0, 0, false⟩],
   4, 8589934592, true, 1, 1024, 1000, "video.mp4"⟩

/-- Concrete environment for the partial-failure scenario: one segment
whose fetch returns false, so the queue drains with zero successes. -/
def envC2 : DLEnv :=
  ⟨true, true, [("seg0.ts", 2)], fun _ => false, [⟨[0], false, 0, 0, false⟩],
   4, 8589934592, true, 1, 1024, 1000, "video.mp4"⟩

/-- Concrete environment for the retarget transient: eight segments, an
initial worker count of 8, all eight dispatched in the first iteration,
none completed yet, and a 2 s tick sampling 100 percent load which
retargets the pool down to 4. -/
def envC6 : DLEnv :=
  ⟨true, true,
   [("s0.ts", 2), ("s1.ts", 2), ("s2.ts", 2), ("s3.ts", 2),
    ("s4.ts", 2), ("s5.ts", 2), ("s6.ts", 2), ("s7.ts", 2)],
   fun _ => true, [⟨[], true, 100, 100, false⟩],
   2, 8589934592, true, 1, 1024, 1000, "video.mp4"⟩

/-- Concrete environment whose playlist parses to zero segments. -/
def envC7 : DLEnv :=
  ⟨true, true, [], fun _ => false, [], 4, 8589934592, true, 1, 0, 0, "video.mp4"⟩

/-- The dispatch loop never raises the in-flight count above the worker
count it dispatched under: its result is bounded by the larger of the
starting in-flight count and the worker count. -/
theorem dispatch_len_le (p : List Nat) : ∀ (a : List Nat) (w : Int),
    (((dispatchStep p a w).2).length : Int) ≤ max (a.length : Int) w := by
  induction p with
  | nil =>
    intro a w
    simp only [dispatchStep]
    exact le_max_left ((a.length : Int)) w
  | cons t rest ih =>
    intro a w
    by_cases h : ((a.length : Int)) < w
    · have hrec := ih (a ++ [t]) w
      simp only [dispatchStep, if_pos h]
      simp only [List.length_append, List.length_cons, List.length_nil] at hrec
      omega
    · simp only [dispatchStep, if_neg h]
      exact le_max_left _ _

/-- The dispatch loop consumes a prefix of the pending queue in order:
the new in-flight list is the old one followed by the first k pending
tasks, and the remaining queue is the corresponding suffix. -/
theorem dispatch_fifo (p : List Nat) : ∀ (a : List Nat) (w : Int),
    ∃ k, (dispatchStep p a w).2 = a ++ List.take k p ∧
         (dispatchStep p a w).1 = List.drop k p := by
  induction p with
  | nil =>
    intro a w
    exact ⟨0, by simp [dispatchStep]⟩
  | cons t rest ih =>
    intro a w
    by_cases h : ((a.length : Int)) < w
    · obtain ⟨k, h1, h2⟩ := ih (a ++ [t]) w
      refine ⟨k + 1, ?_, ?_⟩
      · simp only [dispatchStep, if_pos h, h1, List.take_succ_cons,
          List.append_assoc, List.singleton_append]
      · simp only [dispatchStep, if_pos h, h2, List.drop_succ_cons]
    · exact ⟨0, by simp [dispatchStep, if_neg h]⟩

/-- A retarget from a worker count within the global cap stays within the
global cap. -/
theorem adjust_le_cap (w : Int) (c m : ℚ) (h : w ≤ 32) :
    adjust_workers w c m ≤ 32 := by
  unfold adjust_workers
  split_ifs <;> omega

/-- One loop iteration keeps the worker count within the global cap. -/
theorem step_workers_le (fetch : Nat → Bool) (o : IterO) (s : LoopState)
    (hw : s.workers ≤ 32) : (step fetch o s).workers ≤ 32 := by
  simp only [step]
  split_ifs with h
  · exact adjust_le_cap _ _ _ hw
  · exact hw

/-- One loop iteration keeps the in-flight count within the global cap. -/
theorem step_active_le (fetch : Nat → Bool) (o : IterO) (s : LoopState)
    (hw : s.workers ≤ 32) (ha : ((s.active.length : Int)) ≤ 32) :
    (((step fetch o s).active).length : Int) ≤ 32 := by
  have hf : ((step fetch o s).active).length ≤
      ((dispatchStep s.pending s.active s.workers).2).length := by
    simp only [step, harvestRemaining]
    exact List.length_filter_le _ _
  have hd := dispatch_len_le s.pending s.active s.workers
  omega

/-- Every state at an iteration boundary of the control loop has at most
32 tasks in flight, provided the starting state does. -/
theorem loopTrace_active_le (fetch : Nat → Bool) : ∀ (os : List IterO) (s : LoopState),
    s.workers ≤ 32 → ((s.active.length : Int)) ≤ 32 →
    ∀ t ∈ loopTrace fetch os s, ((t.active.length : Int)) ≤ 32 := by
  intro os
  induction os with
  | nil =>
    intro s hw ha t ht
    simp only [loopTrace, List.mem_singleton] at ht
    subst ht
    exact ha
  | cons o os ih =>
    intro s hw ha t ht
    rw [loopTrace] at ht
    by_cases hd : loopDone s
    · rw [if_pos hd] at ht
      simp only [List.mem_singleton] at ht
      subst ht
      exact ha
    · rw [if_neg hd] at ht
      rcases List.mem_cons.mp ht with h | h
      · subst h; exact ha
      · exact ih (step fetch o s) (step_workers_le fetch o s hw)
          (step_active_le fetch o s hw ha) t h

/-- The initial worker count is within the global cap. -/
theorem initState_workers_le (env : DLEnv) : (initState env).workers ≤ 32 := by
  simp only [initState, get_optimal_workers]
  exact min_le_left _ _

/-- Claim C3 (amended): for every starting worker count already within
the PoolState bounds 4 and 32 and for every pair of cpu/memory
percentages, a single adjust_workers call returns a count within 4 and
32.  (As stated over every starting count the claim is false: the
unchanged branch passes an out-of-range count through, see the
counterexample.) -/
theorem claim_C3_adjust_workers_bounded (c : Int) (cpu mem : ℚ)
    (h4 : 4 ≤ c) (h32 : c ≤ 32) :
    4 ≤ adjust_workers c cpu mem ∧ adjust_workers c cpu mem ≤ 32 := by
  unfold adjust_workers
  split_ifs <;> omega

/-- Witness for claim C3: the amended bound instantiated at worker count
16 under 90 percent cpu and 10 percent memory load. -/
theorem claim_C3_adjust_workers_bounded_witness :
    ((4 : Int) ≤ 16 ∧ (16 : Int) ≤ 32) ∧
    (4 ≤ adjust_workers 16 90 10 ∧ adjust_workers 16 90 10 ≤ 32) :=
  ⟨⟨by decide, by decide⟩,
   claim_C3_adjust_workers_bounded 16 90 10 (by decide) (by decide)⟩

/-- Counterexample for claim C3 as stated: from a starting count of 33
under moderate load (cpu 60, memory 70) the unchanged branch returns 33,
outside the closed interval 4 to 32. -/
theorem claim_C3_counterexample :
    ¬ (4 ≤ adjust_workers 33 60 70 ∧ adjust_workers 33 60 70 ≤ 32) := by
  decide

/-- Claim C4 (amended): for every fixed starting worker count within the
PoolState bounds 4 and 32, adjust_workers is antitone in load: a call
whose cpu and memory percentages are both at least those of another call
never returns a larger worker count.  (As stated over every starting
count the claim is false, see the counterexample at starting count 0.) -/
theorem claim_C4_adjust_workers_antitone (c : Int) (cpu1 mem1 cpu2 mem2 : ℚ)
    (h4 : 4 ≤ c) (h32 : c ≤ 32) (hc : cpu2 ≤ cpu1) (hm : mem2 ≤ mem1) :
    adjust_workers c cpu1 mem1 ≤ adjust_workers c cpu2 mem2 := by
  by_cases hA2 : cpu2 > 80 ∨ mem2 > 80
  · have hA1 : cpu1 > 80 ∨ mem1 > 80 := by
      rcases hA2 with h | h
      · exact Or.inl (lt_of_lt_of_le h hc)
      · exact Or.inr (lt_of_lt_of_le h hm)
    unfold adjust_workers
    rw [if_pos hA1, if_pos hA2]
  · by_cases hB1 : cpu1 < 50 ∧ mem1 < 60
    · have hB2 : cpu2 < 50 ∧ mem2 < 60 :=
        ⟨lt_of_le_of_lt hc hB1.1, lt_of_le_of_lt hm hB1.2⟩
      have hA1 : ¬(cpu1 > 80 ∨ mem1 > 80) := by
        push_neg
        constructor
        · linarith [hB1.1]
        · linarith [hB1.2]
      unfold adjust_workers
      rw [if_neg hA1, if_pos hB1, if_neg hA2, if_pos hB2]
    · by_cases hA1 : cpu1 > 80 ∨ mem1 > 80
      · by_cases hB2 : cpu2 < 50 ∧ mem2 < 60
        · unfold adjust_workers
          rw [if_pos hA1, if_neg hA2, if_pos hB2]
          omega
        · unfold adjust_workers
          rw [if_pos hA1, if_neg hA2, if_neg hB2]
          omega
      · by_cases hB2 : cpu2 < 50 ∧ mem2 < 60
        · unfold adjust_workers
          rw [if_neg hA1, if_neg hB1, if_neg hA2, if_pos hB2]
          omega
        · unfold adjust_workers
          rw [if_neg hA1, if_neg hB1, if_neg hA2, if_neg hB2]

/-- Witness for claim C4: the amended antitonicity instantiated at
starting count 16, comparing full load (100, 100) against idle (0, 0). -/
theorem claim_C4_adjust_workers_antitone_witness :
    ((4 : Int) ≤ 16 ∧ (16 : Int) ≤ 32 ∧ (0 : ℚ) ≤ 100 ∧ (0 : ℚ) ≤ 100) ∧
    adjust_workers 16 100 100 ≤ adjust_workers 16 0 0 :=
  ⟨⟨by decide, by decide, by decide, by decide⟩,
   claim_C4_adjust_workers_antitone 16 100 100 0 0
     (by decide) (by decide) (by decide) (by decide)⟩

/-- Counterexample for claim C4 as stated: from a starting count of 0,
full load (100, 100) yields max 4 (0 - 4) = 4 workers while idle load
(0, 0) yields min 32 (0 + 2) = 2 workers, so the higher-load call returns
strictly more workers. -/
theorem claim_C4_counterexample :
    ¬ (adjust_workers 0 100 100 ≤ adjust_workers 0 0 0) := by
  decide

/-- Claim C5: download_segment always returns a boolean to the pool (an
exception never escapes its try/except), the boolean is false whenever
the GET, the HTTP status check, or the body write fails, and exactly one
GET is issued — no automatic per-segment retry. -/
theorem claim_C5_download_segment_total (e : FetchEnv) :
    (download_segment e).result = Except.ok (e.getOk && e.statusOk && e.writeOk) ∧
    (download_segment e).getAttempts = 1 := by
  rcases e with ⟨g, st, wr⟩
  cases g <;> cases st <;> cases wr <;> exact ⟨rfl, rfl⟩

/-- Claim C8 (amended): generate_download_report returns a formatted
string without raising for every input with nonzero elapsed time, and a
missing output file is treated exactly as size 0.  (As stated over every
input the claim is false: elapsed time 0 raises ZeroDivisionError in the
efficiency line, see the counterexample.) -/
theorem claim_C8_report_total (ts : Nat) (e sp : ℚ) (sz : Option Nat)
    (he : e ≠ 0) :
    (∃ s, generate_download_report ts e sp sz = Except.ok s) ∧
    generate_download_report ts e sp none = generate_download_report ts e sp (some 0) := by
  constructor
  · simp only [generate_download_report]
    rw [if_neg he]
    exact ⟨_, rfl⟩
  · rfl

/-- Witness for claim C8: the amended totality instantiated at 3 segments,
10 s elapsed, 2048 B/s, missing output file. -/
theorem claim_C8_report_total_witness :
    ((10 : ℚ) ≠ 0) ∧
    ((∃ s, generate_download_report 3 10 2048 none = Except.ok s) ∧
     generate_download_report 3 10 2048 none =
       generate_download_report 3 10 2048 (some 0)) :=
  ⟨by norm_num, claim_C8_report_total 3 10 2048 none (by norm_num)⟩

/-- Counterexample for claim C8 as stated: at elapsed time 0 the report
raises ZeroDivisionError instead of returning a string, even though the
output file exists. -/
theorem claim_C8_counterexample :
    generate_download_report 5 0 1024 (some 100) =
      Except.error "ZeroDivisionError: division by zero" := by
  rfl

/-- Evaluation rule for pyint at a value that is a whole nonnegative
number. -/
theorem pyint_eq_natCast (q : ℚ) (n : Nat) (h : q = (n : ℚ)) :
    pyint q = (n : Int) := by
  subst h
  rw [pyint, if_pos (by positivity)]
  exact Int.floor_natCast n

/-- Claim C9: for a 1920 by 1080 source the default crop computation
returns the screen rectangle x 0, y 0, width 1536, height 1080 and the
webcam rectangle x 1536, y 0, width 384, height 270. -/
theorem claim_C9_default_crop_1080p :
    calculate_default_crop_areas 1920 1080 =
      ⟨⟨0, 0, 1536, 1080⟩, ⟨1536, 0, 384, 270⟩⟩ := by
  simp only [calculate_default_crop_areas]
  rw [pyint_eq_natCast _ 1536 (by norm_num), pyint_eq_natCast _ 384 (by norm_num),
    pyint_eq_natCast _ 270 (by norm_num)]
  norm_num

/-- Claim C10: for every positive width and height, the default screen
region starts at the origin and spans the full height, the webcam region
starts at x equal to the screen width, and the two regions are
horizontally disjoint: no x coordinate lies in both. -/
theorem claim_C10_crop_layout (w h : Int) (_hw : 0 < w) (_hh : 0 < h) :
    (calculate_default_crop_areas w h).screen.x = 0 ∧
    (calculate_default_crop_areas w h).screen.y = 0 ∧
    (calculate_default_crop_areas w h).screen.height = h ∧
    (calculate_default_crop_areas w h).webcam.x =
      (calculate_default_crop_areas w h).screen.width ∧
    ∀ t : Int,
      (calculate_default_crop_areas w h).screen.x ≤ t →
      t < (calculate_default_crop_areas w h).screen.x +
          (calculate_default_crop_areas w h).screen.width →
      ¬((calculate_default_crop_areas w h).webcam.x ≤ t ∧
        t < (calculate_default_crop_areas w h).webcam.x +
            (calculate_default_crop_areas w h).webcam.width) := by
  refine ⟨rfl, rfl, rfl, rfl, ?_⟩
  intro t h1 h2 h3
  obtain ⟨h3a, h3b⟩ := h3
  simp only [calculate_default_crop_areas] at h1 h2 h3a h3b
  omega

/-- Witness for claim C10: the layout facts instantiated at the 1920 by
1080 source. -/
theorem claim_C10_crop_layout_witness :
    ((0 : Int) < 1920 ∧ (0 : Int) < 1080) ∧
    ((calculate_default_crop_areas 1920 1080).screen.x = 0 ∧
     (calculate_default_crop_areas 1920 1080).screen.y = 0 ∧
     (calculate_default_crop_areas 1920 1080).screen.height = 1080 ∧
     (calculate_default_crop_areas 1920 1080).webcam.x =
       (calculate_default_crop_areas 1920 1080).screen.width ∧
     ∀ t : Int,
       (calculate_default_crop_areas 1920 1080).screen.x ≤ t →
       t < (calculate_default_crop_areas 1920 1080).screen.x +
           (calculate_default_crop_areas 1920 1080).screen.width →
       ¬((calculate_default_crop_areas 1920 1080).webcam.x ≤ t ∧
         t < (calculate_default_crop_areas 1920 1080).webcam.x +
             (calculate_default_crop_areas 1920 1080).webcam.width)) :=
  ⟨⟨by decide, by decide⟩, claim_C10_crop_layout 1920 1080 (by decide) (by decide)⟩

/-- Claim C1 (exhibiting the code bug): in an environment where every one
of the N = 1 segment fetches succeeds and the merge is bound to succeed,
but the download drains before any 0.5 s progress tick fires, the job
does not reach Complete: last_speed was never assigned, so the final
report read raises UnboundLocalError, the job emits an error snapshot
instead of complete/100, the merged output is removed, and the error is
re-raised. -/
theorem claim_C1_last_speed_bug :
    (∀ i, envC1.fetch i = true) ∧ envC1.mergeOk = true ∧
    download_full_video envC1 =
      some ⟨DLResult.err "UnboundLocalError: last_speed referenced before assignment",
            [⟨"processing", some 95⟩, ⟨"error", none⟩], false, false, 1, 1⟩ :=
  ⟨fun _ => rfl, rfl, by decide⟩

/-- Claim C2: when the pending queue and the in-flight set both drain
with the success counter strictly below the total, download_full_video
ends in Error, not Complete: it emits a final snapshot with status error,
the output file is absent, the scratch temp directory is removed, and the
incomplete-download error is re-raised to the caller. -/
theorem claim_C2_incomplete_error (env : DLEnv)
    (hp : env.playlistFetchOk = true) (hn : ¬(numTotal env = 0))
    (hdone : loopDone (loopFinal env) = true)
    (hlt : (loopFinal env).downloaded < numTotal env) :
    download_full_video env =
      some ⟨DLResult.err "Download incomplete",
            (loopFinal env).statuses ++ [⟨"error", none⟩], false, false,
            numTotal env - (loopFinal env).pending.length, 1⟩ := by
  unfold download_full_video
  rw [if_pos hp, if_neg hn, if_pos hdone, if_pos hlt]

/-- Witness for claim C2: one segment whose fetch returns false; the loop
drains with zero successes and the job ends in the incomplete-download
error outcome. -/
theorem claim_C2_incomplete_error_witness :
    (envC2.playlistFetchOk = true ∧ ¬(numTotal envC2 = 0) ∧
     loopDone (loopFinal envC2) = true ∧
     (loopFinal envC2).downloaded < numTotal envC2) ∧
    download_full_video envC2 =
      some ⟨DLResult.err "Download incomplete",
            (loopFinal envC2).statuses ++ [⟨"error", none⟩], false, false,
            numTotal envC2 - (loopFinal envC2).pending.length, 1⟩ :=
  ⟨⟨rfl, by decide, by decide, by decide⟩,
   claim_C2_incomplete_error envC2 rfl (by decide) (by decide) (by decide)⟩

/-- Claim C6 (amended, first conjunct): the dispatch loop never fills the
in-flight set beyond the worker count it dispatched under (its result is
bounded by the larger of the prior in-flight count and the current worker
count) and consumes the pending queue as a prefix in FIFO manifest order;
(second conjunct): across the whole control loop the in-flight count
never exceeds the global cap 32.  Immediately after a downward retarget
the in-flight count may exceed the new worker count until tasks complete
(see the counterexample), which is what the amendment allows. -/
theorem claim_C6_dispatch_invariant :
    (∀ (p a : List Nat) (w : Int),
        (((dispatchStep p a w).2).length : Int) ≤ max (a.length : Int) w ∧
        ∃ k, (dispatchStep p a w).2 = a ++ List.take k p ∧
             (dispatchStep p a w).1 = List.drop k p) ∧
    (∀ (env : DLEnv), ∀ s ∈ loopTrace env.fetch env.iters (initState env),
        ((s.active.length : Int)) ≤ 32) := by
  constructor
  · intro p a w
    exact ⟨dispatch_len_le p a w, dispatch_fifo p a w⟩
  · intro env s hs
    exact loopTrace_active_le env.fetch env.iters (initState env)
      (initState_workers_le env)
      (by rw [show (initState env).active = [] from rfl]; decide) s hs

/-- Witness for claim C6: the dispatch bound and FIFO shape at a concrete
queue, and the global cap at the initial state of the concrete retarget
environment. -/
theorem claim_C6_dispatch_invariant_witness :
    ((((dispatchStep [0, 1, 2] [] 2).2).length : Int) ≤ max (([] : List Nat).length : Int) 2 ∧
     (∃ k, (dispatchStep [0, 1, 2] [] 2).2 = [] ++ List.take k [0, 1, 2] ∧
           (dispatchStep [0, 1, 2] [] 2).1 = List.drop k [0, 1, 2])) ∧
    (initState envC6 ∈ loopTrace envC6.fetch envC6.iters (initState envC6) ∧
     (((initState envC6).active.length : Int)) ≤ 32) :=
  ⟨claim_C6_dispatch_invariant.1 [0, 1, 2] [] 2,
   ⟨by decide,
    claim_C6_dispatch_invariant.2 envC6 (initState envC6) (by decide)⟩⟩

/-- Counterexample for claim C6 as stated: in the concrete environment
envC6 the first iteration dispatches 8 tasks under a worker count of 8,
then the 2 s tick retargets the pool down to 4; at the next loop boundary
8 tasks are in flight against a worker count of 4, so the in-flight count
exceeds the current worker count immediately after a downward retarget. -/
theorem claim_C6_counterexample :
    ¬ (∀ s ∈ loopTrace envC6.fetch envC6.iters (initState envC6),
        ((s.active.length : Int)) ≤ s.workers) := by
  decide

/-- Claim C7: when the playlist fetch fails, the parse fails, or the
playlist contains zero segments, download_full_video fails before any
segment download starts: the outcome is an error with zero segment
fetches dispatched, a single error snapshot, and exactly one playlist
fetch (no retry). -/
theorem claim_C7_playlist_error_fatal (env : DLEnv)
    (h : env.playlistFetchOk = false ∨ env.parseOk = false ∨ env.segments = []) :
    ∃ msg, download_full_video env =
      some ⟨DLResult.err msg, [⟨"error", none⟩], false, false, 0, 1⟩ := by
  rcases h with h | h | h
  · refine ⟨"Failed to fetch playlist", ?_⟩
    unfold download_full_video
    rw [if_neg (by simp [h])]
  · have h0 : numTotal env = 0 := by
      unfold numTotal get_m3u8_info
      simp [h]
    by_cases hp : env.playlistFetchOk = true
    · exact ⟨"No segments found in playlist", by
        unfold download_full_video
        rw [if_pos hp, if_pos h0]⟩
    · exact ⟨"Failed to fetch playlist", by
        unfold download_full_video
        rw [if_neg hp]⟩
  · have h0 : numTotal env = 0 := by
      unfold numTotal get_m3u8_info
      rw [h]
      split <;> rfl
    by_cases hp : env.playlistFetchOk = true
    · exact ⟨"No segments found in playlist", by
        unfold download_full_video
        rw [if_pos hp, if_pos h0]⟩
    · exact ⟨"Failed to fetch playlist", by
        unfold download_full_video
        rw [if_neg hp]⟩

/-- Witness for claim C7: a playlist that parses to an empty segment
list makes the job fail before any segment download. -/
theorem claim_C7_playlist_error_fatal_witness :
    (envC7.playlistFetchOk = false ∨ envC7.parseOk = false ∨ envC7.segments = []) ∧
    ∃ msg, download_full_video envC7 =
      some ⟨DLResult.err msg, [⟨"error", none⟩], false, false, 0, 1⟩ :=
  ⟨Or.inr (Or.inr rfl), claim_C7_playlist_error_fatal envC7 (Or.inr (Or.inr rfl))⟩
